import Mathlib

/-!
# Verification of the RTP/RTSP video-streaming core

Shallow embedding of the RTP packet codec (`rtp_packet.py`) and of the RTSP
session state machine (`rtsp_server.py`), with theorems settling the frozen
claims about the specification.

Conventions of the embedding:
* Python `bytes` values are `List Nat` (each entry a byte value).
* Python `str` values are `List Char` (`PyStr`); the Python string helpers
  (`strip`, `split`, `startswith`, ...) are re-implemented faithfully below.
* `struct.pack`/`struct.unpack` with format `!BBHII` become explicit
  big-endian byte arithmetic; `struct.error` on an out-of-range argument is
  an `Except.error`.
* Mutation of `self` becomes explicit state passing: a Python method that
  mutates its object returns the updated record.
* Wall-clock samples (`time.time()`, `time.time() * 90000`) are explicit
  parameters (`now`, `now90k`).
* The filesystem probe `os.path.exists` is an explicit parameter
  `env : PyStr → Bool`.
-/

deriving instance DecidableEq for Except

/-! ## RTP packet codec (`rtp_packet.py`, class `RTPPacket`) -/

/-- `RTPPacket.__init__` field layout and defaults (rtp_packet.py lines 12-38). -/
structure RTPPacket where
  version : Nat := 2
  padding : Nat := 0
  extension : Nat := 0
  cc : Nat := 0
  marker : Nat := 0
  pt : Nat := 26
  seq_num : Nat := 0
  timestamp : Nat := 0
  ssrc : Nat := 0
  payload : List Nat := []
  deriving DecidableEq, Repr, Inhabited

/-- `RTPPacket.HEADER_SIZE` (rtp_packet.py line 10). -/
def RTPPacket.HEADER_SIZE : Nat := 12

/-- `struct.pack('!B', x)`: one byte, raising `struct.error` out of range. -/
def packB (x : Nat) : Except String (List Nat) :=
  if x ≤ 255 then .ok [x]
  else .error "ubyte format requires 0 <= number <= 255"

/-- `struct.pack('!H', x)`: two bytes big-endian, raising out of range. -/
def packH (x : Nat) : Except String (List Nat) :=
  if x ≤ 65535 then .ok [x / 256, x % 256]
  else .error "ushort format requires 0 <= number <= 65535"

/-- `struct.pack('!I', x)`: four bytes big-endian, raising out of range. -/
def packI (x : Nat) : Except String (List Nat) :=
  if x ≤ 4294967295 then
    .ok [x / 16777216 % 256, x / 65536 % 256, x / 256 % 256, x % 256]
  else .error "uint format requires 0 <= number <= 4294967295"

/-- `RTPPacket.encode` (rtp_packet.py lines 40-61): byte 0 is
`V<<6 | P<<5 | X<<4 | CC`, byte 1 is `M<<7 | PT`, then the 16-bit sequence
number, 32-bit timestamp and 32-bit SSRC big-endian, then the payload. -/
def RTPPacket.encode (p : RTPPacket) : Except String (List Nat) := do
  let byte1 := (p.version <<< 6) ||| (p.padding <<< 5) ||| (p.extension <<< 4) ||| p.cc
  let byte2 := (p.marker <<< 7) ||| p.pt
  let b1 ← packB byte1
  let b2 ← packB byte2
  let bseq ← packH p.seq_num
  let bts ← packI p.timestamp
  let bssrc ← packI p.ssrc
  return b1 ++ b2 ++ bseq ++ bts ++ bssrc ++ p.payload

/-- `RTPPacket.decode` (rtp_packet.py lines 63-92), the instance method: on a
buffer shorter than 12 bytes it raises `ValueError("Packet too short for RTP
header")` before touching any field; otherwise it overwrites every field of
`self` from the unpacked header and slices the remainder as payload.  The
raise is an `Except.error` and the mutated `self` is the returned record. -/
def RTPPacket.decode (p : RTPPacket) (packet_data : List Nat) : Except String RTPPacket :=
  if packet_data.length < RTPPacket.HEADER_SIZE then
    .error "Packet too short for RTP header"
  else
    let byte1 := packet_data.getD 0 0
    let byte2 := packet_data.getD 1 0
    let seq_num := packet_data.getD 2 0 * 256 + packet_data.getD 3 0
    let timestamp := packet_data.getD 4 0 * 16777216 + packet_data.getD 5 0 * 65536 +
      packet_data.getD 6 0 * 256 + packet_data.getD 7 0
    let ssrc := packet_data.getD 8 0 * 16777216 + packet_data.getD 9 0 * 65536 +
      packet_data.getD 10 0 * 256 + packet_data.getD 11 0
    .ok { p with
      version := (byte1 >>> 6) &&& 0x3
      padding := (byte1 >>> 5) &&& 0x1
      extension := (byte1 >>> 4) &&& 0x1
      cc := byte1 &&& 0xF
      marker := (byte2 >>> 7) &&& 0x1
      pt := byte2 &&& 0x7F
      seq_num := seq_num
      timestamp := timestamp
      ssrc := ssrc
      payload := packet_data.drop RTPPacket.HEADER_SIZE }

/-- `RTPPacket.decode_packet` (rtp_packet.py lines 94-125), the class method:
same unpacking, but builds a fresh `RTPPacket` from the extracted fields. -/
def RTPPacket.decode_packet (packet_data : List Nat) : Except String RTPPacket :=
  if packet_data.length < RTPPacket.HEADER_SIZE then
    .error "Packet too short for RTP header"
  else
    let byte1 := packet_data.getD 0 0
    let byte2 := packet_data.getD 1 0
    let seq_num := packet_data.getD 2 0 * 256 + packet_data.getD 3 0
    let timestamp := packet_data.getD 4 0 * 16777216 + packet_data.getD 5 0 * 65536 +
      packet_data.getD 6 0 * 256 + packet_data.getD 7 0
    let ssrc := packet_data.getD 8 0 * 16777216 + packet_data.getD 9 0 * 65536 +
      packet_data.getD 10 0 * 256 + packet_data.getD 11 0
    .ok { version := (byte1 >>> 6) &&& 0x3
          padding := (byte1 >>> 5) &&& 0x1
          extension := (byte1 >>> 4) &&& 0x1
          cc := byte1 &&& 0xF
          marker := (byte2 >>> 7) &&& 0x1
          pt := byte2 &&& 0x7F
          seq_num := seq_num
          timestamp := timestamp
          ssrc := ssrc
          payload := packet_data.drop RTPPacket.HEADER_SIZE }

/-! ## RTP packetizer (`rtp_packet.py`, class `RTPVideoStream`) -/

/-- `RTPVideoStream` state (rtp_packet.py lines 136-139). -/
structure RTPVideoStream where
  ssrc : Nat
  seq_num : Nat
  timestamp_base : Nat
  deriving DecidableEq, Repr

/-- `RTPVideoStream.__init__` (rtp_packet.py lines 136-139).
`self.ssrc = ssrc or int(time.time())`: Python `or` falls through to the
clock sample when the argument is `None` or `0`.  `now` models
`int(time.time())` and `now90k` models `int(time.time() * 90000)`. -/
def RTPVideoStream.init (ssrc_arg : Option Nat) (now now90k : Nat) : RTPVideoStream :=
  { ssrc := match ssrc_arg with
      | some v => if v = 0 then now else v
      | none => now
    seq_num := 0
    timestamp_base := now90k }

/-- `RTPVideoStream.create_packet` (rtp_packet.py lines 141-168): emits a
packet carrying the current `seq_num`, then advances `seq_num` by 1 modulo
65536.  `clock90k` models the `int(time.time() * 90000)` sample taken inside
the call. -/
def RTPVideoStream.create_packet (st : RTPVideoStream) (frame_data : List Nat)
    (is_last_fragment : Bool) (clock90k : Nat) : RTPPacket × RTPVideoStream :=
  let timestamp := st.timestamp_base + clock90k
  ({ pt := 26
     seq_num := st.seq_num
     timestamp := timestamp
     ssrc := st.ssrc
     marker := if is_last_fragment then 1 else 0
     payload := frame_data },
   { st with seq_num := (st.seq_num + 1) % 65536 })

/-- The packets emitted by repeatedly calling `create_packet`, one call per
entry of `inputs` (frame bytes, last-fragment flag, 90 kHz clock sample). -/
def runCreate (st : RTPVideoStream) : List (List Nat × Bool × Nat) → List RTPPacket
  | [] => []
  | (f, b, t) :: rest =>
    let out := st.create_packet f b t
    out.1 :: runCreate out.2 rest

/-! ## Bit-layout helper lemmas -/

/-- Reducing a bind of `Except.ok`, as produced by the `do`-block of
`encode`. -/
theorem exceptBindOk {ε α β : Type} (a : α) (f : α → Except ε β) :
    (Except.ok (ε := ε) a >>= f) = f a := rfl

/-- `pure` on `Except` is `Except.ok`. -/
theorem exceptPureEq {ε α : Type} (a : α) :
    (pure a : Except ε α) = Except.ok a := rfl

/-- Byte 0 of the header fits in 8 bits, and the version and padding bits
re-extract losslessly for in-range fields. -/
theorem byte1_spec_a : ∀ v < 4, ∀ pd < 2, ∀ ex < 2, ∀ c < 16,
    ((v <<< 6) ||| (pd <<< 5) ||| (ex <<< 4) ||| c) ≤ 255 ∧
    ((((v <<< 6) ||| (pd <<< 5) ||| (ex <<< 4) ||| c) >>> 6) &&& 0x3 = v) ∧
    ((((v <<< 6) ||| (pd <<< 5) ||| (ex <<< 4) ||| c) >>> 5) &&& 0x1 = pd) := by
  decide

/-- The extension bit and CSRC count re-extract losslessly from byte 0 for
in-range fields. -/
theorem byte1_spec_b : ∀ v < 4, ∀ pd < 2, ∀ ex < 2, ∀ c < 16,
    ((((v <<< 6) ||| (pd <<< 5) ||| (ex <<< 4) ||| c) >>> 4) &&& 0x1 = ex) ∧
    (((v <<< 6) ||| (pd <<< 5) ||| (ex <<< 4) ||| c) &&& 0xF = c) := by
  decide

/-- Packing and re-extracting byte 1 of the header is lossless for in-range
fields, and the packed byte fits in 8 bits. -/
theorem byte2_spec : ∀ m < 2, ∀ pt < 128,
    ((m <<< 7) ||| pt) ≤ 255 ∧
    ((((m <<< 7) ||| pt) >>> 7) &&& 0x1 = m) ∧
    (((m <<< 7) ||| pt) &&& 0x7F = pt) := by
  decide

/-! ## Claims about the codec -/

/-- **C1.** For every combination of in-range header fields and every payload
byte sequence, decoding the bytes produced by `encode` yields a packet whose
header fields all equal the originals and whose payload is the original
payload, exactly. -/
theorem rtp_encode_decode_roundtrip (v pd ex cc m pt sq ts ss : Nat) (pl : List Nat)
    (hv : v < 4) (hpd : pd < 2) (hex : ex < 2) (hcc : cc < 16)
    (hm : m < 2) (hpt : pt < 128) (hsq : sq < 65536)
    (hts : ts < 4294967296) (hss : ss < 4294967296) :
    ∃ bs, RTPPacket.encode ⟨v, pd, ex, cc, m, pt, sq, ts, ss, pl⟩ = .ok bs ∧
      RTPPacket.decode_packet bs = .ok ⟨v, pd, ex, cc, m, pt, sq, ts, ss, pl⟩ := by
  obtain ⟨h1le, h1v, h1pd⟩ := byte1_spec_a v hv pd hpd ex hex cc hcc
  obtain ⟨h1ex, h1cc⟩ := byte1_spec_b v hv pd hpd ex hex cc hcc
  obtain ⟨h2le, h2m, h2pt⟩ := byte2_spec m hm pt hpt
  refine ⟨((v <<< 6) ||| (pd <<< 5) ||| (ex <<< 4) ||| cc) ::
          ((m <<< 7) ||| pt) ::
          sq / 256 :: sq % 256 ::
          ts / 16777216 % 256 :: ts / 65536 % 256 :: ts / 256 % 256 :: ts % 256 ::
          ss / 16777216 % 256 :: ss / 65536 % 256 :: ss / 256 % 256 :: ss % 256 :: pl,
          ?_, ?_⟩
  · simp [RTPPacket.encode, packB, packH, packI, exceptBindOk, exceptPureEq,
      h1le, h2le, Nat.lt_succ_iff.mp hsq, Nat.lt_succ_iff.mp hts, Nat.lt_succ_iff.mp hss]
  · simp only [RTPPacket.decode_packet, RTPPacket.HEADER_SIZE, List.length_cons]
    rw [if_neg (by omega)]
    simp only [List.getD_cons_zero, List.getD_cons_succ, List.drop_succ_cons,
      List.drop_zero]
    rw [h1v, h1pd, h1ex, h1cc, h2m, h2pt]
    have hseq : sq / 256 * 256 + sq % 256 = sq := by omega
    have hts' : ts / 16777216 % 256 * 16777216 + ts / 65536 % 256 * 65536 +
        ts / 256 % 256 * 256 + ts % 256 = ts := by omega
    have hss' : ss / 16777216 % 256 * 16777216 + ss / 65536 % 256 * 65536 +
        ss / 256 % 256 * 256 + ss % 256 = ss := by omega
    rw [hseq, hts', hss']

/-- Witness for C1 at a concrete packet. -/
theorem rtp_encode_decode_roundtrip_witness :
    ∃ bs, RTPPacket.encode ⟨2, 1, 0, 3, 1, 26, 65535, 4294967295, 7, [9, 255]⟩ = .ok bs ∧
      RTPPacket.decode_packet bs = .ok ⟨2, 1, 0, 3, 1, 26, 65535, 4294967295, 7, [9, 255]⟩ :=
  rtp_encode_decode_roundtrip 2 1 0 3 1 26 65535 4294967295 7 [9, 255]
    (by decide) (by decide) (by decide) (by decide) (by decide) (by decide)
    (by decide) (by decide) (by decide)

/-- **C2.** Decoding any byte sequence shorter than 12 bytes signals the
"packet too short" codec error and returns no packet: both decoders produce
`Except.error` (the Python `raise` happens before any field of the object
being decoded into is assigned, which the functional embedding renders by
returning no updated record at all). -/
theorem rtp_decode_short_error (p : RTPPacket) (packet_data : List Nat)
    (h : packet_data.length < 12) :
    p.decode packet_data = .error "Packet too short for RTP header" ∧
    RTPPacket.decode_packet packet_data = .error "Packet too short for RTP header" := by
  constructor <;>
    simp [RTPPacket.decode, RTPPacket.decode_packet, RTPPacket.HEADER_SIZE, h]

/-- Witness for C2 at a concrete 3-byte buffer. -/
theorem rtp_decode_short_error_witness :
    ({} : RTPPacket).decode [1, 2, 3] = .error "Packet too short for RTP header" ∧
    RTPPacket.decode_packet [1, 2, 3] = .error "Packet too short for RTP header" :=
  rtp_decode_short_error {} [1, 2, 3] (by decide)

/-- **C9.** For every combination of in-range header field values, the header
portion of the encoded packet is exactly 12 bytes, so the total encoded
length is 12 plus the payload length, for payloads of any length. -/
theorem rtp_encode_length (p : RTPPacket)
    (hv : p.version < 4) (hpd : p.padding < 2) (hex : p.extension < 2)
    (hcc : p.cc < 16) (hm : p.marker < 2) (hpt : p.pt < 128)
    (hsq : p.seq_num < 65536) (hts : p.timestamp < 4294967296)
    (hss : p.ssrc < 4294967296) :
    ∃ bs, p.encode = .ok bs ∧ bs.length = 12 + p.payload.length := by
  obtain ⟨v, pd, ex, cc, m, pt, sq, ts, ss, pl⟩ := p
  obtain ⟨h1le, -, -⟩ := byte1_spec_a v hv pd hpd ex hex cc hcc
  obtain ⟨h2le, -, -⟩ := byte2_spec m hm pt hpt
  refine ⟨((v <<< 6) ||| (pd <<< 5) ||| (ex <<< 4) ||| cc) ::
          ((m <<< 7) ||| pt) ::
          sq / 256 :: sq % 256 ::
          ts / 16777216 % 256 :: ts / 65536 % 256 :: ts / 256 % 256 :: ts % 256 ::
          ss / 16777216 % 256 :: ss / 65536 % 256 :: ss / 256 % 256 :: ss % 256 :: pl,
          ?_, ?_⟩
  · simp [RTPPacket.encode, packB, packH, packI, exceptBindOk, exceptPureEq,
      h1le, h2le, Nat.lt_succ_iff.mp hsq, Nat.lt_succ_iff.mp hts, Nat.lt_succ_iff.mp hss]
  · simp only [List.length_cons]
    omega

/-- Witness for C9 at a concrete packet with a 5-byte payload. -/
theorem rtp_encode_length_witness :
    ∃ bs, RTPPacket.encode ⟨3, 1, 1, 15, 1, 127, 65535, 0, 1, [1, 2, 3, 4, 5]⟩ = .ok bs ∧
      bs.length = 12 + ([1, 2, 3, 4, 5] : List Nat).length :=
  rtp_encode_length ⟨3, 1, 1, 15, 1, 127, 65535, 0, 1, [1, 2, 3, 4, 5]⟩
    (by decide) (by decide) (by decide) (by decide) (by decide) (by decide)
    (by decide) (by decide) (by decide)

/-- **C10.** The instance method `decode` and the class method `decode_packet`
agree on every input: for buffers of length at least 12 they produce the same
ten field values and payload regardless of the packet object `decode` was
invoked on (every field is overwritten), and for shorter buffers they raise
the same "packet too short" error — the two decoders are interchangeable. -/
theorem decode_methods_agree (p : RTPPacket) (packet_data : List Nat) :
    p.decode packet_data = RTPPacket.decode_packet packet_data := rfl

/-! ## Claim about the packetizer sequence numbers -/

theorem runCreate_length (st : RTPVideoStream) (inputs : List (List Nat × Bool × Nat)) :
    (runCreate st inputs).length = inputs.length := by
  induction inputs generalizing st with
  | nil => rfl
  | cons hd tl ih =>
    obtain ⟨f, b, t⟩ := hd
    simp [runCreate, ih]

theorem runCreate_seq (inputs : List (List Nat × Bool × Nat)) :
    ∀ st : RTPVideoStream, st.seq_num < 65536 → ∀ i < inputs.length,
      ((runCreate st inputs).getD i default).seq_num = (st.seq_num + i) % 65536 := by
  induction inputs with
  | nil => intro st _ i hi; simp at hi
  | cons hd tl ih =>
    intro st hst i hi
    obtain ⟨f, b, t⟩ := hd
    match i with
    | 0 =>
      simp [runCreate, RTPVideoStream.create_packet, Nat.mod_eq_of_lt hst]
    | Nat.succ j =>
      have hj : j < tl.length := by simpa using hi
      have := ih { st with seq_num := (st.seq_num + 1) % 65536 }
        (Nat.mod_lt _ (by decide)) j hj
      simp only [runCreate, RTPVideoStream.create_packet, List.getD_cons_succ] at this ⊢
      rw [this]
      omega

/-- **C5.** For one packetizer started fresh (as the server does with
`RTPVideoStream()`), the first emitted packet carries sequence number 0, and
every later packet's sequence number is the previous one plus 1 modulo
65536 — wrapping from 65535 to 0 without skipping or repeating. -/
theorem packetizer_sequence_numbers (now now90k : Nat)
    (inputs : List (List Nat × Bool × Nat)) (n : Nat)
    (h : n + 1 < inputs.length) :
    ((runCreate (RTPVideoStream.init none now now90k) inputs).getD 0 default).seq_num = 0 ∧
    ((runCreate (RTPVideoStream.init none now now90k) inputs).getD (n + 1) default).seq_num =
      (((runCreate (RTPVideoStream.init none now now90k) inputs).getD n default).seq_num + 1)
        % 65536 := by
  have h0 : (RTPVideoStream.init none now now90k).seq_num = 0 := rfl
  have hfst := runCreate_seq inputs (RTPVideoStream.init none now now90k)
    (by rw [h0]; decide) 0 (by omega)
  have hn := runCreate_seq inputs (RTPVideoStream.init none now now90k)
    (by rw [h0]; decide) n (by omega)
  have hsn := runCreate_seq inputs (RTPVideoStream.init none now now90k)
    (by rw [h0]; decide) (n + 1) h
  rw [h0] at hfst hn hsn
  refine ⟨by simpa using hfst, ?_⟩
  rw [hn, hsn]
  omega

/-- Witness for C5: a fresh packetizer emitting two packets gives sequence
numbers 0 and 1 = (0 + 1) % 65536. -/
theorem packetizer_sequence_numbers_witness :
    ((runCreate (RTPVideoStream.init none 5 9) [([1], true, 2), ([2], false, 3)]).getD 0
      default).seq_num = 0 ∧
    ((runCreate (RTPVideoStream.init none 5 9) [([1], true, 2), ([2], false, 3)]).getD 1
      default).seq_num =
      (((runCreate (RTPVideoStream.init none 5 9) [([1], true, 2), ([2], false, 3)]).getD 0
        default).seq_num + 1) % 65536 :=
  packetizer_sequence_numbers 5 9 [([1], true, 2), ([2], false, 3)] 0 (by decide)

/-! ## Python string helpers

`rtsp_server.py` manipulates Python strings; they are embedded as `List Char`
and the string methods used by the server are re-implemented with Python's
semantics. -/

/-- Python strings are modelled as lists of characters. -/
abbrev PyStr := List Char

/-- Python `str.strip()`: remove leading and trailing whitespace. -/
def pyStrip (s : PyStr) : PyStr :=
  ((s.dropWhile Char.isWhitespace).reverse.dropWhile Char.isWhitespace).reverse

/-- Split at every character satisfying `p`, keeping empty segments — the
shape of Python `str.split(sep)` for a one-character separator. -/
def splitByPred (p : Char → Bool) : PyStr → List PyStr
  | [] => [[]]
  | c :: rest =>
    if p c then [] :: splitByPred p rest
    else match splitByPred p rest with
      | [] => [[c]]
      | seg :: segs => (c :: seg) :: segs

/-- Python `str.split(sep)` for a one-character separator `sep`. -/
def splitOnChar (sep : Char) (s : PyStr) : List PyStr :=
  splitByPred (fun c => c == sep) s

/-- Python `str.split()` with no argument: split on whitespace runs and
discard empty segments. -/
def pySplitWs (s : PyStr) : List PyStr :=
  (splitByPred Char.isWhitespace s).filter (fun seg => seg ≠ [])

/-- Split a string at the first occurrence of `pat`, returning the part
before and the part after; `none` when `pat` does not occur. -/
def splitFirstOn (pat : PyStr) : PyStr → Option (PyStr × PyStr)
  | [] => if pat.isEmpty then some ([], []) else none
  | c :: rest =>
    if pat.isPrefixOf (c :: rest) then some ([], (c :: rest).drop pat.length)
    else match splitFirstOn pat rest with
      | some (pre, post) => some (c :: pre, post)
      | none => none

/-- Python `s.split(pat)[1]` for a multi-character `pat`: the segment between
the first and second occurrence of `pat` (`none` when `pat` does not occur,
where Python would raise an `IndexError`). -/
def pySplitSecond (pat : PyStr) (s : PyStr) : Option PyStr :=
  match splitFirstOn pat s with
  | none => none
  | some (_, post) =>
    match splitFirstOn pat post with
    | some (pre2, _) => some pre2
    | none => some post

/-- The value of a nonempty all-digit string, else `none`. -/
def digitsVal? (s : PyStr) : Option Nat :=
  if s = [] then none
  else if s.all Char.isDigit then
    some (s.foldl (fun a c => 10 * a + (c.toNat - 48)) 0)
  else none

/-- Python `int(s)`: strip whitespace, optional sign, decimal digits;
`none` models the `ValueError` raised on anything else. -/
def pyInt? (s : PyStr) : Option Int :=
  match pyStrip s with
  | '-' :: rest => (digitsVal? rest).map (fun n => -(n : Int))
  | '+' :: rest => (digitsVal? rest).map (fun n => (n : Int))
  | t => (digitsVal? t).map (fun n => (n : Int))

/-! ## RTSP session model (`rtsp_server.py`) -/

/-- The session `state` strings `"INIT"`, `"READY"`, `"PLAYING"`. -/
inductive SessState
  | INIT
  | READY
  | PLAYING
  deriving DecidableEq, Repr, Inhabited

/-- `ClientSession.__init__` (rtsp_server.py lines 314-325).  The socket,
address and streaming-thread handles are I/O resources outside the shallow
embedding; every field the protocol logic reads or writes is kept. -/
structure ClientSession where
  seq_num : Int := 0
  session_id : Option Nat := none
  state : SessState := .INIT
  video_stream : Option PyStr := none
  rtp_stream : Option RTPVideoStream := none
  client_rtp_port : Option Int := none
  server_rtp_port : Option Int := none
  deriving DecidableEq, Repr, Inhabited

/-- An RTSP response as the server assembles it (status line, `CSeq` header,
optional `Session` header, optional `Transport` header).  `sessionHdr = some
v` means the response text contains a `Session:` line showing `v`, where the
Python f-string renders `v = none` as the literal `None`.  `transportHdr`
carries the two client and two server port numbers of a SETUP reply. -/
structure RTSPResponse where
  code : Nat
  cseq : Int
  sessionHdr : Option (Option Nat) := none
  transportHdr : Option (Int × Int × Int × Int) := none
  deriving DecidableEq, Repr

/-- `RTSPServer.OK` (rtsp_server.py line 24). -/
def OK : Nat := 200
/-- `RTSPServer.FILE_NOT_FOUND` (rtsp_server.py line 25). -/
def FILE_NOT_FOUND : Nat := 404
/-- `RTSPServer.CON_ERR` (rtsp_server.py line 26). -/
def CON_ERR : Nat := 500

/-- `RTSPServer.generate_response` (rtsp_server.py lines 288-297): status
line plus a bare `CSeq` header — no `Session` and no `Transport` header. -/
def generate_response (code : Nat) (cseq : Int) : RTSPResponse :=
  { code := code, cseq := cseq }

/-- `ClientSession.cleanup` (rtsp_server.py lines 327-333): resets the state
to INIT and closes the RTP socket and video stream (I/O, not tracked). -/
def ClientSession.cleanup (s : ClientSession) : ClientSession :=
  { s with state := .INIT }

/-- The literal `'client_port='` searched for in `handle_setup`. -/
def clientPortPat : PyStr := "client_port=".toList

/-- `'client_port=' in line` (rtsp_server.py line 167). -/
def hasClientPort (l : PyStr) : Bool :=
  (splitFirstOn clientPortPat l).isSome

/-- The client RTP port scan of `handle_setup` (rtsp_server.py lines
164-170): default 25000; the first line containing `client_port=` overrides
it with `int(line.split('client_port=')[1].split('-')[0])`.  `none` models
the `ValueError` from `int` on a non-numeric value (which the surrounding
`try` of `handle_setup` turns into a 500 response). -/
def extractClientPort (lines : List PyStr) : Option Int :=
  match lines.find? hasClientPort with
  | none => some 25000
  | some l =>
    match pySplitSecond clientPortPat l with
    | none => none
    | some seg => pyInt? (seg.takeWhile (fun c => c != '-'))

/-- `RTSPServer.handle_setup` (rtsp_server.py lines 147-195).  `env` models
`os.path.exists`; `now` models `int(time.time())` and `now90k` the 90 kHz
clock sample of the packetizer constructor.  The URL's last `/`-segment is
looked up under `videos/`, then (for `.mp4` names) in the root directory; a
miss answers 404.  A `ValueError` while parsing the client port is caught by
the handler's `try` and answered with 500, before any session field is
assigned.  On success the video stream, a fresh packetizer, the ports and a
new session id are stored, the state becomes READY, and the 200 reply carries
the `Transport` and `Session` headers. -/
def handle_setup (env : PyStr → Bool) (now now90k : Nat) (url : PyStr)
    (lines : List PyStr) (s : ClientSession) : RTSPResponse × ClientSession :=
  let filename := (splitOnChar '/' url).getLastD []
  let videos_path := "videos/".toList ++ filename
  let root_ok := env filename && (".mp4".toList.isSuffixOf (filename.map Char.toLower))
  if !env videos_path && !root_ok then
    (generate_response FILE_NOT_FOUND s.seq_num, s)
  else
    let video_path := if env videos_path then videos_path else filename
    match extractClientPort lines with
    | none => (generate_response CON_ERR s.seq_num, s)
    | some client_rtp_port =>
      let s' := { s with
        video_stream := some video_path
        rtp_stream := some (RTPVideoStream.init none now now90k)
        client_rtp_port := some client_rtp_port
        server_rtp_port := some 25000
        session_id := some now
        state := .READY }
      ({ code := OK
         cseq := s.seq_num
         sessionHdr := some (some now)
         transportHdr := some (client_rtp_port, client_rtp_port + 1, 25000, 25001) }, s')

/-- `RTSPServer.handle_play` (rtsp_server.py lines 197-217): a 500 error
unless the state is READY or PLAYING; otherwise the state becomes PLAYING
(the pacer thread spawn is I/O, not tracked) and the 200 reply carries the
`Session` header. -/
def handle_play (s : ClientSession) : RTSPResponse × ClientSession :=
  if s.state ≠ .READY ∧ s.state ≠ .PLAYING then
    (generate_response CON_ERR s.seq_num, s)
  else
    let s' := { s with state := .PLAYING }
    ({ code := OK, cseq := s'.seq_num, sessionHdr := some s'.session_id }, s')

/-- `RTSPServer.handle_pause` (rtsp_server.py lines 219-227): no state check;
the state is set to READY unconditionally and the 200 reply carries the
`Session` header. -/
def handle_pause (s : ClientSession) : RTSPResponse × ClientSession :=
  let s' := { s with state := .READY }
  ({ code := OK, cseq := s'.seq_num, sessionHdr := some s'.session_id }, s')

/-- `RTSPServer.handle_teardown` (rtsp_server.py lines 229-238): no state
check; the state is set to INIT, `cleanup` runs, and the 200 reply carries
the `Session` header. -/
def handle_teardown (s : ClientSession) : RTSPResponse × ClientSession :=
  let s' := ClientSession.cleanup { s with state := .INIT }
  ({ code := OK, cseq := s'.seq_num, sessionHdr := some s'.session_id }, s')

/-- `request.strip().split('\n')` (rtsp_server.py line 114). -/
def requestLines (request : PyStr) : List PyStr :=
  splitOnChar '\n' (pyStrip request)

/-- `lines[0].split()` (rtsp_server.py line 119): the whitespace-separated
tokens of the first line. -/
def requestTokens (request : PyStr) : List PyStr :=
  pySplitWs ((requestLines request).headD [])

/-- The CSeq scan (rtsp_server.py lines 126-131): default 0; the first header
line starting with `CSeq:` overrides it with `int(line.split(':')[1].strip())`.
`Except.error` models the uncaught `ValueError` from `int`, which aborts the
client-handling loop. -/
def extractCSeq (lines : List PyStr) : Except Unit Int :=
  match lines.tail.find? (fun l => "CSeq:".toList.isPrefixOf l) with
  | none => .ok 0
  | some l =>
    match pyInt? ((splitOnChar ':' l).getD 1 []) with
    | some v => .ok v
    | none => .error ()

/-- `RTSPServer.parse_rtsp_request` (rtsp_server.py lines 112-145): split the
request into lines; answer 500 with the session's stored sequence number when
the first line has fewer than three whitespace tokens; otherwise record the
request's CSeq into `session.seq_num` and dispatch on the method, answering
500 for an unknown method.  (The `if not lines` guard of the source is kept
although `split` never returns an empty list.) -/
def parse_rtsp_request (env : PyStr → Bool) (now now90k : Nat) (request : PyStr)
    (s : ClientSession) : Except Unit (RTSPResponse × ClientSession) :=
  let lines := requestLines request
  if lines = [] then
    .ok (generate_response CON_ERR s.seq_num, s)
  else
    let request_line := pySplitWs (lines.headD [])
    if request_line.length < 3 then
      .ok (generate_response CON_ERR s.seq_num, s)
    else
      let method := request_line.headD []
      let url := request_line.getD 1 []
      match extractCSeq lines with
      | .error e => .error e
      | .ok cseq =>
        let s1 := { s with seq_num := cseq }
        if method = "SETUP".toList then .ok (handle_setup env now now90k url lines s1)
        else if method = "PLAY".toList then .ok (handle_play s1)
        else if method = "PAUSE".toList then .ok (handle_pause s1)
        else if method = "TEARDOWN".toList then .ok (handle_teardown s1)
        else .ok (generate_response CON_ERR cseq, s1)


/-! ## Helper lemmas about the session handlers -/

theorem splitByPred_ne_nil (p : Char → Bool) (s : PyStr) : splitByPred p s ≠ [] := by
  cases s with
  | nil => simp [splitByPred]
  | cons c rest =>
    simp only [splitByPred]
    split
    · simp
    · split <;> simp

/-- Extracting the components of an `Except.ok` step result. -/
theorem okPairInj {α β : Type} {out : α × β} {r : α} {b : β}
    (h : (Except.ok (ε := Unit) out) = .ok (r, b)) : r = out.1 ∧ b = out.2 := by
  obtain ⟨r0, b0⟩ := out
  injection h with h2
  injection h2 with ha hb
  exact ⟨ha.symm, hb.symm⟩

theorem handle_play_session_id (s : ClientSession) :
    (handle_play s).2.session_id = s.session_id := by
  simp only [handle_play]
  split <;> rfl

theorem handle_pause_session_id (s : ClientSession) :
    (handle_pause s).2.session_id = s.session_id := rfl

theorem handle_teardown_session_id (s : ClientSession) :
    (handle_teardown s).2.session_id = s.session_id := rfl

theorem handle_setup_session_id (env : PyStr → Bool) (now now90k : Nat) (url : PyStr)
    (lines : List PyStr) (s : ClientSession) :
    (handle_setup env now now90k url lines s).2.session_id = s.session_id ∨
    ((handle_setup env now now90k url lines s).2.session_id = some now ∧
     (handle_setup env now now90k url lines s).1.code = OK ∧
     (handle_setup env now now90k url lines s).1.transportHdr ≠ none) := by
  simp only [handle_setup]
  split
  · left; rfl
  · split
    · left; rfl
    · right; exact ⟨rfl, rfl, by simp⟩

theorem handle_play_resp (s : ClientSession) :
    (handle_play s).1.cseq = s.seq_num ∧
    ((handle_play s).1.code = OK →
      (handle_play s).1.sessionHdr = some (handle_play s).2.session_id) ∧
    ((handle_play s).1.code ≠ OK → (handle_play s).1.sessionHdr = none) := by
  simp only [handle_play]
  split
  · exact ⟨rfl, fun h => absurd h (by simp [generate_response, CON_ERR, OK]), fun _ => rfl⟩
  · exact ⟨rfl, fun _ => rfl, fun h => absurd rfl h⟩

theorem handle_pause_resp (s : ClientSession) :
    (handle_pause s).1.cseq = s.seq_num ∧
    ((handle_pause s).1.code = OK →
      (handle_pause s).1.sessionHdr = some (handle_pause s).2.session_id) ∧
    ((handle_pause s).1.code ≠ OK → (handle_pause s).1.sessionHdr = none) :=
  ⟨rfl, fun _ => rfl, fun h => absurd rfl h⟩

theorem handle_teardown_resp (s : ClientSession) :
    (handle_teardown s).1.cseq = s.seq_num ∧
    ((handle_teardown s).1.code = OK →
      (handle_teardown s).1.sessionHdr = some (handle_teardown s).2.session_id) ∧
    ((handle_teardown s).1.code ≠ OK → (handle_teardown s).1.sessionHdr = none) :=
  ⟨rfl, fun _ => rfl, fun h => absurd rfl h⟩

theorem handle_setup_resp (env : PyStr → Bool) (now now90k : Nat) (url : PyStr)
    (lines : List PyStr) (s : ClientSession) :
    (handle_setup env now now90k url lines s).1.cseq = s.seq_num ∧
    ((handle_setup env now now90k url lines s).1.code = OK →
      (handle_setup env now now90k url lines s).1.sessionHdr =
        some (handle_setup env now now90k url lines s).2.session_id) ∧
    ((handle_setup env now now90k url lines s).1.code ≠ OK →
      (handle_setup env now now90k url lines s).1.sessionHdr = none) := by
  simp only [handle_setup]
  split
  · exact ⟨rfl, fun h => absurd h (by simp [generate_response, FILE_NOT_FOUND, OK]), fun _ => rfl⟩
  · split
    · exact ⟨rfl, fun h => absurd h (by simp [generate_response, CON_ERR, OK]), fun _ => rfl⟩
    · exact ⟨rfl, fun _ => rfl, fun h => absurd rfl h⟩

/-! ## Claims about the session state machine -/

/-- **C3 (counterexample).** The claim "each of PLAY, PAUSE, and TEARDOWN as
the first call produces a server-error response and leaves the session state
equal to INIT" is false: on a fresh session (state INIT), PAUSE answers 200
(not a server error) and moves the state to READY. -/
theorem init_pause_accepted_counterexample :
    ({} : ClientSession).state = .INIT ∧
    (handle_pause {}).1.code = 200 ∧
    (handle_pause {}).1.code ≠ CON_ERR ∧
    (handle_pause {}).2.state = .READY ∧
    (handle_pause {}).2.state ≠ .INIT := by
  decide

/-- **C3 (amended).** For a session in state INIT: PLAY produces a generic
server-error (500) response and leaves the state INIT; PAUSE succeeds with a
200 response and moves the state to READY; TEARDOWN succeeds with a 200
response and leaves the state INIT. -/
theorem init_state_method_responses (s : ClientSession) (h : s.state = .INIT) :
    (handle_play s).1.code = CON_ERR ∧ (handle_play s).2.state = .INIT ∧
    (handle_pause s).1.code = OK ∧ (handle_pause s).2.state = .READY ∧
    (handle_teardown s).1.code = OK ∧ (handle_teardown s).2.state = .INIT := by
  have hp : (handle_play s) = (generate_response CON_ERR s.seq_num, s) := by
    simp only [handle_play]
    rw [if_pos (by rw [h]; exact ⟨by decide, by decide⟩)]
  refine ⟨by rw [hp]; rfl, by rw [hp]; exact h, rfl, rfl, rfl, rfl⟩

/-- Witness for C3 (amended) on a fresh session. -/
theorem init_state_method_responses_witness :
    (handle_play {}).1.code = CON_ERR ∧ (handle_play ({} : ClientSession)).2.state = .INIT ∧
    (handle_pause {}).1.code = OK ∧ (handle_pause ({} : ClientSession)).2.state = .READY ∧
    (handle_teardown {}).1.code = OK ∧
    (handle_teardown ({} : ClientSession)).2.state = .INIT :=
  init_state_method_responses {} rfl

/-- **C7 (counterexample).** The claim "a control message whose first line
has fewer than three tokens is answered with a server error whose echoed
sequence id is 0, regardless of any previously processed requests" is false:
after a request carrying `CSeq: 5` has been processed, the malformed request
`FOO` is answered with echoed sequence id 5, not 0. -/
theorem malformed_request_nonzero_cseq_counterexample :
    (requestTokens "FOO".toList).length < 3 ∧
    ((parse_rtsp_request (fun _ => false) 0 0 "PLAY x RTSP/1.0\nCSeq: 5".toList
        {}).toOption.map (fun out => out.2.seq_num)) = some 5 ∧
    ((parse_rtsp_request (fun _ => false) 0 0 "FOO".toList
        { seq_num := 5 }).toOption.map (fun out => out.1.cseq)) = some 5 ∧
    (5 : Int) ≠ 0 := by
  decide

/-- **C7 (amended).** A control message whose first line splits into fewer
than three whitespace-separated tokens is answered with a generic
server-error response whose echoed sequence id is the session's *stored*
sequence number — the CSeq of the last well-formed request, 0 only initially —
and the session is left unchanged. -/
theorem requestLines_ne_nil (request : PyStr) : requestLines request ≠ [] :=
  splitByPred_ne_nil _ _

theorem malformed_request_echoes_stored_seq (env : PyStr → Bool) (now now90k : Nat)
    (request : PyStr) (s : ClientSession)
    (h : (requestTokens request).length < 3) :
    parse_rtsp_request env now now90k request s =
      .ok (generate_response CON_ERR s.seq_num, s) := by
  simp only [requestTokens] at h
  simp only [parse_rtsp_request]
  rw [if_neg (requestLines_ne_nil request), if_pos h]

/-- Witness for C7 (amended): the malformed request `FOO` against a session
whose stored sequence number is 9. -/
theorem malformed_request_echoes_stored_seq_witness :
    parse_rtsp_request (fun _ => false) 3 4 "FOO".toList { seq_num := 9 } =
      .ok (generate_response CON_ERR ({ seq_num := 9 } : ClientSession).seq_num,
           { seq_num := 9 }) :=
  malformed_request_echoes_stored_seq (fun _ => false) 3 4 "FOO".toList { seq_num := 9 }
    (by decide)

/-- Environment and request used to refute C4: a second successful SETUP at a
later wall-clock time. -/
def tokenEnv : PyStr → Bool := fun p => p == "videos/a.mp4".toList

def tokenReq : PyStr := "SETUP rtsp://host/a.mp4 RTSP/1.0\nCSeq: 1".toList

def tokenRun1 : RTSPResponse × ClientSession :=
  (parse_rtsp_request tokenEnv 100 9000 tokenReq {}).toOption.getD (generate_response 0 0, {})

def tokenRun2 : RTSPResponse × ClientSession :=
  (parse_rtsp_request tokenEnv 200 18000 tokenReq tokenRun1.2).toOption.getD
    (generate_response 0 0, {})

/-- **C4 (counterexample).** The claim "the session token is assigned exactly
once, on the first successful SETUP, and never changes across subsequent
operations including further successful SETUPs" is false: a first successful
SETUP at time 100 assigns token 100, and a second successful SETUP at time
200 reassigns it to 200. -/
theorem session_token_reassigned_counterexample :
    tokenRun1.1.code = 200 ∧ tokenRun1.2.session_id = some 100 ∧
    tokenRun2.1.code = 200 ∧ tokenRun2.2.session_id = some 200 ∧
    (some 200 : Option Nat) ≠ some 100 := by
  decide

/-- **C4 (amended).** Processing any request either leaves the session token
unchanged, or is a successful SETUP (200 response carrying a Transport
header) that assigns the token to the current wall-clock time — so the token
is (re)assigned on *every* successful SETUP, and a later successful SETUP at
a different time changes it; no other operation ever changes it. -/
theorem session_token_update_characterization (env : PyStr → Bool) (now now90k : Nat)
    (request : PyStr) (s : ClientSession) (resp : RTSPResponse) (s' : ClientSession)
    (hstep : parse_rtsp_request env now now90k request s = .ok (resp, s')) :
    s'.session_id = s.session_id ∨
      (s'.session_id = some now ∧ resp.code = OK ∧ resp.transportHdr ≠ none) := by
  simp only [parse_rtsp_request] at hstep
  split at hstep
  · obtain ⟨hr, hs⟩ := okPairInj hstep
    subst hr; subst hs
    left; rfl
  · split at hstep
    · obtain ⟨hr, hs⟩ := okPairInj hstep
      subst hr; subst hs
      left; rfl
    · split at hstep
      · exact Except.noConfusion hstep
      · split at hstep
        · obtain ⟨hr, hs⟩ := okPairInj hstep
          subst hr; subst hs
          exact handle_setup_session_id _ _ _ _ _ _
        · split at hstep
          · obtain ⟨hr, hs⟩ := okPairInj hstep
            subst hr; subst hs
            exact Or.inl (handle_play_session_id _)
          · split at hstep
            · obtain ⟨hr, hs⟩ := okPairInj hstep
              subst hr; subst hs
              exact Or.inl (handle_pause_session_id _)
            · split at hstep
              · obtain ⟨hr, hs⟩ := okPairInj hstep
                subst hr; subst hs
                exact Or.inl (handle_teardown_session_id _)
              · obtain ⟨hr, hs⟩ := okPairInj hstep
                subst hr; subst hs
                left; rfl

/-- Witness for C4 (amended): a PAUSE request leaves the token unchanged. -/
theorem session_token_update_characterization_witness :
    ({ seq_num := 7, state := .READY } : ClientSession).session_id =
      ({} : ClientSession).session_id ∨
    (({ seq_num := 7, state := .READY } : ClientSession).session_id = some 0 ∧
     ({ code := 200, cseq := 7, sessionHdr := some none } : RTSPResponse).code = OK ∧
     ({ code := 200, cseq := 7, sessionHdr := some none } : RTSPResponse).transportHdr ≠
       none) :=
  session_token_update_characterization (fun _ => false) 0 0
    "PAUSE rtsp://h/x RTSP/1.0\nCSeq: 7".toList {}
    { code := 200, cseq := 7, sessionHdr := some none }
    { seq_num := 7, state := .READY } (by decide)

/-- Environment for refuting C6: one resource exists, a second SETUP targets
a missing one. -/
def hdrEnv : PyStr → Bool := fun p => p == "videos/a.mp4".toList

def hdrSess1 : ClientSession :=
  ((parse_rtsp_request hdrEnv 100 9000
      "SETUP rtsp://host/a.mp4 RTSP/1.0\nCSeq: 1".toList {}).toOption.map Prod.snd).getD {}

def hdrOut2 : RTSPResponse × ClientSession :=
  (parse_rtsp_request hdrEnv 101 9090
      "SETUP rtsp://host/missing.mp4 RTSP/1.0\nCSeq: 2".toList hdrSess1).toOption.getD
    (generate_response 0 0, {})

/-- **C6 (counterexample).** The claim "once the session token has been
assigned, every response also carries that session token" is false: after a
successful SETUP assigns token 100, a SETUP for a missing resource is
answered 404 via the generic generator, which carries no Session header at
all (while the session still holds token 100). -/
theorem error_response_omits_session_counterexample :
    hdrSess1.session_id = some 100 ∧
    hdrOut2.2.session_id = some 100 ∧
    hdrOut2.1.code = FILE_NOT_FOUND ∧
    hdrOut2.1.sessionHdr = none := by
  decide

/-- **C6 (amended).** Every response to a request whose first line has at
least three whitespace tokens echoes that request's CSeq (0 when the header
is absent).  Success (200) responses carry a Session header showing the
session's current token; error responses (404/500), produced by the generic
generator, carry no Session header even after the token has been assigned. -/
theorem response_echo_and_session_header (env : PyStr → Bool) (now now90k : Nat)
    (request : PyStr) (s : ClientSession) (resp : RTSPResponse) (s' : ClientSession)
    (c : Int)
    (htok : 3 ≤ (requestTokens request).length)
    (hc : extractCSeq (requestLines request) = .ok c)
    (hstep : parse_rtsp_request env now now90k request s = .ok (resp, s')) :
    resp.cseq = c ∧
    (resp.code = OK → resp.sessionHdr = some s'.session_id) ∧
    (resp.code ≠ OK → resp.sessionHdr = none) := by
  simp only [parse_rtsp_request] at hstep
  split at hstep
  · rename_i hl
    exact absurd hl (requestLines_ne_nil request)
  · split at hstep
    · rename_i hlen
      simp only [requestTokens] at htok
      omega
    · split at hstep
      · exact Except.noConfusion hstep
      · rename_i cseq heq
        rw [hc] at heq
        injection heq with hcc
        subst hcc
        split at hstep
        · obtain ⟨hr, hs⟩ := okPairInj hstep
          subst hr; subst hs
          exact handle_setup_resp _ _ _ _ _ _
        · split at hstep
          · obtain ⟨hr, hs⟩ := okPairInj hstep
            subst hr; subst hs
            exact handle_play_resp _
          · split at hstep
            · obtain ⟨hr, hs⟩ := okPairInj hstep
              subst hr; subst hs
              exact handle_pause_resp _
            · split at hstep
              · obtain ⟨hr, hs⟩ := okPairInj hstep
                subst hr; subst hs
                exact handle_teardown_resp _
              · obtain ⟨hr, hs⟩ := okPairInj hstep
                subst hr; subst hs
                exact ⟨rfl, fun hk => absurd hk (by simp [generate_response, CON_ERR, OK]),
                  fun _ => rfl⟩

/-- Witness for C6 (amended): a PAUSE request with CSeq 7 is answered 200
echoing 7 and showing the (unassigned) token in its Session header. -/
theorem response_echo_and_session_header_witness :
    ({ code := 200, cseq := 7, sessionHdr := some none } : RTSPResponse).cseq = 7 ∧
    (({ code := 200, cseq := 7, sessionHdr := some none } : RTSPResponse).code = OK →
      ({ code := 200, cseq := 7, sessionHdr := some none } : RTSPResponse).sessionHdr =
        some ({ seq_num := 7, state := .READY } : ClientSession).session_id) ∧
    (({ code := 200, cseq := 7, sessionHdr := some none } : RTSPResponse).code ≠ OK →
      ({ code := 200, cseq := 7, sessionHdr := some none } : RTSPResponse).sessionHdr =
        none) :=
  response_echo_and_session_header (fun _ => false) 0 0
    "PAUSE rtsp://h/x RTSP/1.0\nCSeq: 7".toList {}
    { code := 200, cseq := 7, sessionHdr := some none }
    { seq_num := 7, state := .READY } 7 (by decide) (by decide) (by decide)

/-! ## Claims about SETUP transport-port handling -/

def portEnv : PyStr → Bool := fun p => p == "videos/a.mp4".toList

def portLines : List PyStr :=
  ["SETUP rtsp://host/a.mp4 RTSP/1.0".toList, "CSeq: 1".toList,
   "Transport: RTP/UDP;client_port=abc-def".toList]

def portOut : RTSPResponse × ClientSession :=
  handle_setup portEnv 100 9000 "rtsp://host/a.mp4".toList portLines {}

/-- **C8 (counterexample).** The claim "a SETUP on an existing resource with
a malformed (non-numeric) client_port succeeds with 200 and the default
client RTP port substituted" is false: with `client_port=abc-def` the `int`
conversion raises, the handler's `try` answers 500, and no state changes. -/
theorem setup_malformed_port_error_counterexample :
    portEnv "videos/a.mp4".toList = true ∧
    portOut.1.code = CON_ERR ∧
    portOut.1.code ≠ OK ∧
    portOut.2 = ({} : ClientSession) := by
  decide

/-- **C8 (amended).** For a SETUP whose target resolves in the `videos`
directory: when no request line mentions `client_port=`, the SETUP succeeds
with 200 and the fixed default client RTP port 25000; but when a
`client_port=` value is present and non-numeric (the port scan signals a
`ValueError`), the SETUP fails with a generic 500 server-error response and
the session is unchanged — no default is substituted. -/
theorem setup_transport_default_and_malformed (env : PyStr → Bool) (now now90k : Nat)
    (url : PyStr) (lines : List PyStr) (s : ClientSession)
    (hres : env ("videos/".toList ++ (splitOnChar '/' url).getLastD []) = true) :
    ((lines.find? hasClientPort = none) →
      (handle_setup env now now90k url lines s).1.code = OK ∧
      (handle_setup env now now90k url lines s).1.transportHdr =
        some (25000, 25001, 25000, 25001) ∧
      (handle_setup env now now90k url lines s).2.client_rtp_port = some 25000 ∧
      (handle_setup env now now90k url lines s).2.state = .READY) ∧
    ((extractClientPort lines = none) →
      handle_setup env now now90k url lines s = (generate_response CON_ERR s.seq_num, s)) := by
  constructor
  · intro hfind
    have hport : extractClientPort lines = some 25000 := by
      simp [extractClientPort, hfind]
    simp only [handle_setup, hres, hport]
    simp [OK]
  · intro hnone
    simp only [handle_setup, hres, hnone]
    simp

/-- Witness for C8 (amended): a SETUP for an existing resource with no
Transport header at all. -/
theorem setup_transport_default_and_malformed_witness :
    ((["SETUP rtsp://host/a.mp4 RTSP/1.0".toList,
       "CSeq: 1".toList].find? hasClientPort = none) →
      (handle_setup portEnv 50 4500 "rtsp://host/a.mp4".toList
        ["SETUP rtsp://host/a.mp4 RTSP/1.0".toList, "CSeq: 1".toList] {}).1.code = OK ∧
      (handle_setup portEnv 50 4500 "rtsp://host/a.mp4".toList
        ["SETUP rtsp://host/a.mp4 RTSP/1.0".toList, "CSeq: 1".toList] {}).1.transportHdr =
        some (25000, 25001, 25000, 25001) ∧
      (handle_setup portEnv 50 4500 "rtsp://host/a.mp4".toList
        ["SETUP rtsp://host/a.mp4 RTSP/1.0".toList,
         "CSeq: 1".toList] {}).2.client_rtp_port = some 25000 ∧
      (handle_setup portEnv 50 4500 "rtsp://host/a.mp4".toList
        ["SETUP rtsp://host/a.mp4 RTSP/1.0".toList, "CSeq: 1".toList] {}).2.state =
        .READY) ∧
    ((extractClientPort ["SETUP rtsp://host/a.mp4 RTSP/1.0".toList,
        "CSeq: 1".toList] = none) →
      handle_setup portEnv 50 4500 "rtsp://host/a.mp4".toList
        ["SETUP rtsp://host/a.mp4 RTSP/1.0".toList, "CSeq: 1".toList] {} =
        (generate_response CON_ERR ({} : ClientSession).seq_num, {})) :=
  setup_transport_default_and_malformed portEnv 50 4500 "rtsp://host/a.mp4".toList
    ["SETUP rtsp://host/a.mp4 RTSP/1.0".toList, "CSeq: 1".toList] {} (by decide)
